import Mathlib

/-!
Verification development for the batch finalizer and trusted-batch sync
classifier of the zkevm-node repository.  Go machine integers are embedded
as `Nat` with explicit wrap-around (`% 2^32`, `% 2^64`) where Go unsigned
arithmetic can overflow; fallible Go code is embedded with `Except`;
external collaborators (state store, executor, event log) are embedded as
oracle values carried in an environment record.
-/

namespace ZkevmNode

/-- Modulus of Go `uint32` arithmetic (2^32). -/
def U32MOD : Nat := 4294967296

/-- Modulus of Go `uint64` arithmetic (2^64). -/
def U64MOD : Nat := 18446744073709551616

/-- Go `uint32` subtraction `a - b` (wrapping), for `a b < U32MOD`. -/
def sub32 (a b : Nat) : Nat := (a + U32MOD - b) % U32MOD

/-- Go `uint64` subtraction `a - b` (wrapping), for `a b < U64MOD`. -/
def sub64 (a b : Nat) : Nat := (a + U64MOD - b) % U64MOD

/-- Embedding of `state.ZKCounters`: `GasUsed` is a Go `uint64`, every other
counter is a Go `uint32`. -/
structure ZKCounters where
  GasUsed : Nat
  UsedKeccakHashes : Nat
  UsedPoseidonHashes : Nat
  UsedPoseidonPaddings : Nat
  UsedMemAligns : Nat
  UsedArithmetics : Nat
  UsedBinaries : Nat
  UsedSteps : Nat
  UsedSha256Hashes_V2 : Nat
  deriving Repr, DecidableEq

/-- Embedding of `state.BatchResources`: the zk counters plus the batch
byte size (`Bytes` is a Go `uint64`). -/
structure BatchResources where
  ZKCounters : ZKCounters
  Bytes : Nat
  deriving Repr, DecidableEq

/-- Embedding of `state.BatchConstraintsCfg`: the configured maxima.
`MaxTxsPerBatch`, `MaxBatchBytesSize` and `MaxCumulativeGasUsed` are Go
`uint64`; the remaining counters are Go `uint32`. -/
structure BatchConstraintsCfg where
  MaxTxsPerBatch : Nat
  MaxBatchBytesSize : Nat
  MaxCumulativeGasUsed : Nat
  MaxKeccakHashes : Nat
  MaxPoseidonHashes : Nat
  MaxPoseidonPaddings : Nat
  MaxMemAligns : Nat
  MaxArithmetics : Nat
  MaxBinaries : Nat
  MaxSteps : Nat
  MaxSHA256Hashes : Nat
  deriving Repr, DecidableEq

/-- Range invariant of the Go integer widths of `ZKCounters`. -/
def ZKCounters.Wf (z : ZKCounters) : Prop :=
  z.GasUsed < U64MOD ∧ z.UsedKeccakHashes < U32MOD ∧ z.UsedPoseidonHashes < U32MOD ∧
  z.UsedPoseidonPaddings < U32MOD ∧ z.UsedMemAligns < U32MOD ∧ z.UsedArithmetics < U32MOD ∧
  z.UsedBinaries < U32MOD ∧ z.UsedSteps < U32MOD ∧ z.UsedSha256Hashes_V2 < U32MOD

/-- Range invariant of the Go integer widths of `BatchConstraintsCfg`. -/
def BatchConstraintsCfg.Wf (c : BatchConstraintsCfg) : Prop :=
  c.MaxTxsPerBatch < U64MOD ∧ c.MaxBatchBytesSize < U64MOD ∧ c.MaxCumulativeGasUsed < U64MOD ∧
  c.MaxKeccakHashes < U32MOD ∧ c.MaxPoseidonHashes < U32MOD ∧ c.MaxPoseidonPaddings < U32MOD ∧
  c.MaxMemAligns < U32MOD ∧ c.MaxArithmetics < U32MOD ∧ c.MaxBinaries < U32MOD ∧
  c.MaxSteps < U32MOD ∧ c.MaxSHA256Hashes < U32MOD

/-- Embedding of `getUsedBatchResources` (src/sequencer/batch.go): the
component-wise Go (wrapping) subtraction `constraints - remainingResources`. -/
def getUsedBatchResources (constraints : BatchConstraintsCfg)
    (remainingResources : BatchResources) : BatchResources :=
  { ZKCounters :=
      { GasUsed := sub64 constraints.MaxCumulativeGasUsed remainingResources.ZKCounters.GasUsed
        UsedKeccakHashes := sub32 constraints.MaxKeccakHashes remainingResources.ZKCounters.UsedKeccakHashes
        UsedPoseidonHashes := sub32 constraints.MaxPoseidonHashes remainingResources.ZKCounters.UsedPoseidonHashes
        UsedPoseidonPaddings := sub32 constraints.MaxPoseidonPaddings remainingResources.ZKCounters.UsedPoseidonPaddings
        UsedMemAligns := sub32 constraints.MaxMemAligns remainingResources.ZKCounters.UsedMemAligns
        UsedArithmetics := sub32 constraints.MaxArithmetics remainingResources.ZKCounters.UsedArithmetics
        UsedBinaries := sub32 constraints.MaxBinaries remainingResources.ZKCounters.UsedBinaries
        UsedSteps := sub32 constraints.MaxSteps remainingResources.ZKCounters.UsedSteps
        UsedSha256Hashes_V2 := sub32 constraints.MaxSHA256Hashes remainingResources.ZKCounters.UsedSha256Hashes_V2 }
    Bytes := sub64 constraints.MaxBatchBytesSize remainingResources.Bytes }

/-- Embedding of `getMaxRemainingResources` (src/sequencer/batch.go): the
full constraints budget as a `BatchResources` value. -/
def getMaxRemainingResources (constraints : BatchConstraintsCfg) : BatchResources :=
  { ZKCounters :=
      { GasUsed := constraints.MaxCumulativeGasUsed
        UsedKeccakHashes := constraints.MaxKeccakHashes
        UsedPoseidonHashes := constraints.MaxPoseidonHashes
        UsedPoseidonPaddings := constraints.MaxPoseidonPaddings
        UsedMemAligns := constraints.MaxMemAligns
        UsedArithmetics := constraints.MaxArithmetics
        UsedBinaries := constraints.MaxBinaries
        UsedSteps := constraints.MaxSteps
        UsedSha256Hashes_V2 := constraints.MaxSHA256Hashes }
    Bytes := constraints.MaxBatchBytesSize }

/-- Mathematical (non-wrapping) component-wise addition of batch
resources, used to state the round-trip property of the spec. -/
def BatchResources.add (a b : BatchResources) : BatchResources :=
  { ZKCounters :=
      { GasUsed := a.ZKCounters.GasUsed + b.ZKCounters.GasUsed
        UsedKeccakHashes := a.ZKCounters.UsedKeccakHashes + b.ZKCounters.UsedKeccakHashes
        UsedPoseidonHashes := a.ZKCounters.UsedPoseidonHashes + b.ZKCounters.UsedPoseidonHashes
        UsedPoseidonPaddings := a.ZKCounters.UsedPoseidonPaddings + b.ZKCounters.UsedPoseidonPaddings
        UsedMemAligns := a.ZKCounters.UsedMemAligns + b.ZKCounters.UsedMemAligns
        UsedArithmetics := a.ZKCounters.UsedArithmetics + b.ZKCounters.UsedArithmetics
        UsedBinaries := a.ZKCounters.UsedBinaries + b.ZKCounters.UsedBinaries
        UsedSteps := a.ZKCounters.UsedSteps + b.ZKCounters.UsedSteps
        UsedSha256Hashes_V2 := a.ZKCounters.UsedSha256Hashes_V2 + b.ZKCounters.UsedSha256Hashes_V2 }
    Bytes := a.Bytes + b.Bytes }

/-- Component-wise order on batch resources (`a` fits inside `b`). -/
def BatchResources.le (a b : BatchResources) : Prop :=
  a.ZKCounters.GasUsed ≤ b.ZKCounters.GasUsed ∧
  a.ZKCounters.UsedKeccakHashes ≤ b.ZKCounters.UsedKeccakHashes ∧
  a.ZKCounters.UsedPoseidonHashes ≤ b.ZKCounters.UsedPoseidonHashes ∧
  a.ZKCounters.UsedPoseidonPaddings ≤ b.ZKCounters.UsedPoseidonPaddings ∧
  a.ZKCounters.UsedMemAligns ≤ b.ZKCounters.UsedMemAligns ∧
  a.ZKCounters.UsedArithmetics ≤ b.ZKCounters.UsedArithmetics ∧
  a.ZKCounters.UsedBinaries ≤ b.ZKCounters.UsedBinaries ∧
  a.ZKCounters.UsedSteps ≤ b.ZKCounters.UsedSteps ∧
  a.ZKCounters.UsedSha256Hashes_V2 ≤ b.ZKCounters.UsedSha256Hashes_V2 ∧
  a.Bytes ≤ b.Bytes

instance (a b : BatchResources) : Decidable (BatchResources.le a b) := by
  unfold BatchResources.le; infer_instance

/-- Embedding of `getConstraintThresholdUint32` (src/sequencer/batch.go):
`input * pct / 100` where the multiplication is Go `uint32` (wrapping). -/
def getConstraintThresholdUint32 (pct input : Nat) : Nat :=
  (input * pct) % U32MOD / 100

/-- Embedding of `getConstraintThresholdUint64` (src/sequencer/batch.go):
`input * uint64(pct) / 100` where the multiplication is Go `uint64`
(wrapping). -/
def getConstraintThresholdUint64 (pct input : Nat) : Nat :=
  (input * pct) % U64MOD / 100

/-- C7: for every constraints value and every remaining value that is
component-wise at most the constraints maxima, adding
`getUsedBatchResources constraints remaining` to `remaining`
component-wise yields exactly `getMaxRemainingResources constraints`. -/
theorem used_plus_remaining_eq_max (c : BatchConstraintsCfg) (r : BatchResources)
    (hc : c.Wf) (hle : BatchResources.le r (getMaxRemainingResources c)) :
    BatchResources.add (getUsedBatchResources c r) r = getMaxRemainingResources c := by
  obtain ⟨h1, h2, h3, h4, h5, h6, h7, h8, h9, h10, h11⟩ := hc
  obtain ⟨g1, g2, g3, g4, g5, g6, g7, g8, g9, g10⟩ := hle
  simp only [getMaxRemainingResources] at g1 g2 g3 g4 g5 g6 g7 g8 g9 g10
  simp only [BatchResources.add, getUsedBatchResources, getMaxRemainingResources,
    sub32, sub64, U32MOD, U64MOD, BatchResources.mk.injEq, ZKCounters.mk.injEq] at *
  omega

/-- Witness for C7 at a concrete constraints/remaining pair. -/
theorem used_plus_remaining_eq_max_witness :
    BatchResources.add
      (getUsedBatchResources
        ⟨300, 1000, 5000, 10, 20, 30, 40, 50, 60, 70, 80⟩
        ⟨⟨4000, 3, 4, 5, 6, 7, 8, 9, 10⟩, 600⟩)
      ⟨⟨4000, 3, 4, 5, 6, 7, 8, 9, 10⟩, 600⟩
      = getMaxRemainingResources ⟨300, 1000, 5000, 10, 20, 30, 40, 50, 60, 70, 80⟩ :=
  used_plus_remaining_eq_max
    ⟨300, 1000, 5000, 10, 20, 30, 40, 50, 60, 70, 80⟩
    ⟨⟨4000, 3, 4, 5, 6, 7, 8, 9, 10⟩, 600⟩
    (by unfold BatchConstraintsCfg.Wf U32MOD U64MOD; norm_num)
    (by unfold BatchResources.le getMaxRemainingResources; norm_num)

/-- C8: the constraint thresholds are computed in fixed-width modular
arithmetic (`% 2^32` for the uint32 variant, `% 2^64` for the uint64
variant), and whenever `input * pct ≥ 2^32` the uint32 threshold wraps and
is strictly smaller than the exact mathematical value `input * pct / 100`. -/
theorem getConstraintThreshold_wraps (input pct : Nat)
    (h : input * pct ≥ U32MOD) :
    getConstraintThresholdUint32 pct input = (input * pct) % U32MOD / 100 ∧
    getConstraintThresholdUint64 pct input = (input * pct) % U64MOD / 100 ∧
    getConstraintThresholdUint32 pct input < input * pct / 100 := by
  refine ⟨rfl, rfl, ?_⟩
  unfold getConstraintThresholdUint32 U32MOD at *
  generalize hp : input * pct = p at *
  omega

/-- Witness for C8: `input = 65536`, `pct = 65536` makes the product
exactly 2^32, so the wrapped uint32 threshold is 0 while the exact value
is 42949672. -/
theorem getConstraintThreshold_wraps_witness :
    (65536 : Nat) * 65536 ≥ U32MOD ∧
    getConstraintThresholdUint32 65536 65536 < 65536 * 65536 / 100 :=
  ⟨by norm_num [U32MOD], (getConstraintThreshold_wraps 65536 65536 (by norm_num [U32MOD])).2.2⟩

/-- Embedding of `state.ClosingReason` (the constructors referenced by the
sequencer sources and the spec data model). -/
inductive ClosingReason where
  | EmptyClosingReason
  | BatchFullClosingReason
  | BatchAlmostFullClosingReason
  | ForcedBatchClosingReason
  | TimeoutClosingReason
  | GlobalExitRootUpdateClosingReason
  deriving Repr, DecidableEq

/-- Embedding of `sequencer.Batch` (src/sequencer/batch.go): hashes and
addresses are embedded as `Nat` (their encodings are injective). -/
structure Batch where
  batchNumber : Nat
  coinbase : Nat
  timestamp : Nat
  initialStateRoot : Nat
  imStateRoot : Nat
  finalStateRoot : Nat
  localExitRoot : Nat
  countOfTxs : Nat
  remainingResources : BatchResources
  closingReason : ClosingReason
  deriving Repr, DecidableEq

/-- The fixed else-if chain of threshold checks of
`isBatchResourcesExhausted` (src/sequencer/batch.go), returning the
`(result, resourceDesc)` pair the Go method accumulates. -/
def batchResourceCheck (pct : Nat) (batchConstraints : BatchConstraintsCfg)
    (resources : BatchResources) : Bool × String :=
  let zkCounters := resources.ZKCounters
  if resources.Bytes ≤ getConstraintThresholdUint64 pct batchConstraints.MaxBatchBytesSize then
      (true, "MaxBatchBytesSize")
    else if zkCounters.UsedSteps ≤ getConstraintThresholdUint32 pct batchConstraints.MaxSteps then
      (true, "MaxSteps")
    else if zkCounters.UsedPoseidonPaddings ≤ getConstraintThresholdUint32 pct batchConstraints.MaxPoseidonPaddings then
      (true, "MaxPoseidonPaddings")
    else if zkCounters.UsedBinaries ≤ getConstraintThresholdUint32 pct batchConstraints.MaxBinaries then
      (true, "MaxBinaries")
    else if zkCounters.UsedKeccakHashes ≤ getConstraintThresholdUint32 pct batchConstraints.MaxKeccakHashes then
      (true, "MaxKeccakHashes")
    else if zkCounters.UsedArithmetics ≤ getConstraintThresholdUint32 pct batchConstraints.MaxArithmetics then
      (true, "MaxArithmetics")
    else if zkCounters.UsedMemAligns ≤ getConstraintThresholdUint32 pct batchConstraints.MaxMemAligns then
      (true, "MaxMemAligns")
    else if zkCounters.GasUsed ≤ getConstraintThresholdUint64 pct batchConstraints.MaxCumulativeGasUsed then
      (true, "MaxCumulativeGasUsed")
    else if zkCounters.UsedSha256Hashes_V2 ≤ getConstraintThresholdUint32 pct batchConstraints.MaxSHA256Hashes then
      (true, "MaxSHA256Hashes")
    else
      (false, "")

/-- Embedding of `isBatchResourcesExhausted` (src/sequencer/batch.go).
The triple returned is `(result, resourceDesc, wipBatch after the call)`:
the Go method reads `f.wipBatch.remainingResources`, walks the fixed
else-if chain of threshold checks (`batchResourceCheck`), and when the
result is true sets the wip batch closing reason to
`BatchAlmostFullClosingReason`. -/
def isBatchResourcesExhausted (pct : Nat) (batchConstraints : BatchConstraintsCfg)
    (wipBatch : Batch) : Bool × String × Batch :=
  let rd := batchResourceCheck pct batchConstraints wipBatch.remainingResources
  if rd.1 then
    (rd.1, rd.2, { wipBatch with closingReason := ClosingReason.BatchAlmostFullClosingReason })
  else
    (rd.1, rd.2, wipBatch)

/-- The ordered list of `(resource name, at-or-below-threshold flag)` checks
of `isBatchResourcesExhausted`, in the fixed source order.  Used to state
that the reported resource is the first at-or-below-threshold component. -/
def exhaustChecks (pct : Nat) (bc : BatchConstraintsCfg) (r : BatchResources) : List (String × Bool) :=
  [("MaxBatchBytesSize", decide (r.Bytes ≤ getConstraintThresholdUint64 pct bc.MaxBatchBytesSize)),
   ("MaxSteps", decide (r.ZKCounters.UsedSteps ≤ getConstraintThresholdUint32 pct bc.MaxSteps)),
   ("MaxPoseidonPaddings", decide (r.ZKCounters.UsedPoseidonPaddings ≤ getConstraintThresholdUint32 pct bc.MaxPoseidonPaddings)),
   ("MaxBinaries", decide (r.ZKCounters.UsedBinaries ≤ getConstraintThresholdUint32 pct bc.MaxBinaries)),
   ("MaxKeccakHashes", decide (r.ZKCounters.UsedKeccakHashes ≤ getConstraintThresholdUint32 pct bc.MaxKeccakHashes)),
   ("MaxArithmetics", decide (r.ZKCounters.UsedArithmetics ≤ getConstraintThresholdUint32 pct bc.MaxArithmetics)),
   ("MaxMemAligns", decide (r.ZKCounters.UsedMemAligns ≤ getConstraintThresholdUint32 pct bc.MaxMemAligns)),
   ("MaxCumulativeGasUsed", decide (r.ZKCounters.GasUsed ≤ getConstraintThresholdUint64 pct bc.MaxCumulativeGasUsed)),
   ("MaxSHA256Hashes", decide (r.ZKCounters.UsedSha256Hashes_V2 ≤ getConstraintThresholdUint32 pct bc.MaxSHA256Hashes))]

/-- Statement of claim C3 as written: the exhaustion condition read over
"the nine zk_counters plus bytes" — i.e. ten components, `poseidon_hashes`
included.  This definition follows the wording of the claim, to be compared with
`isBatchResourcesExhausted`, which is translated from the source. -/
def exhaustedPerClaimTenComponents (pct : Nat) (bc : BatchConstraintsCfg) (r : BatchResources) : Bool :=
  ((exhaustChecks pct bc r).any Prod.snd) ||
    decide (r.ZKCounters.UsedPoseidonHashes ≤ getConstraintThresholdUint32 pct bc.MaxPoseidonHashes)

/-- Concrete constraints for the C3 counterexample: every counter maximum
is 100 and the byte maximum is 1000. -/
def bcC3 : BatchConstraintsCfg := ⟨300, 1000, 100, 100, 100, 100, 100, 100, 100, 100, 100⟩

/-- Concrete wip batch for the C3 counterexample: every remaining
component sits at its maximum (above the 90% thresholds) except
`UsedPoseidonHashes`, which is 0. -/
def wipC3 : Batch :=
  { batchNumber := 5, coinbase := 1, timestamp := 0, initialStateRoot := 3, imStateRoot := 4
    finalStateRoot := 4, localExitRoot := 6, countOfTxs := 1
    remainingResources := ⟨⟨100, 100, 0, 100, 100, 100, 100, 100, 100⟩, 1000⟩
    closingReason := ClosingReason.EmptyClosingReason }

/-- Counterexample to C3 as written: with `pct = 90`, the remaining
`UsedPoseidonHashes` (0) is at or below its threshold (90), so the claimed
ten-component condition holds, yet `isBatchResourcesExhausted` returns
false — the source never checks `UsedPoseidonHashes`. -/
theorem isBatchResourcesExhausted_claim_cex :
    ¬ (((isBatchResourcesExhausted 90 bcC3 wipC3).1 = true) ↔
        (exhaustedPerClaimTenComponents 90 bcC3 wipC3.remainingResources = true)) := by
  decide

/-- C3 (amended): `isBatchResourcesExhausted` returns true iff at least one
of the nine checked components (bytes, steps, poseidon_paddings, binaries,
keccak_hashes, arithmetics, mem_aligns, gas_used, sha256_hashes_v2 —
`poseidon_hashes` is not checked) is at or below its threshold; the
resource it reports is the first such component in that fixed order; when
it returns true it sets the closing reason to `BatchAlmostFullClosingReason`
and otherwise leaves the batch unchanged. -/
theorem isBatchResourcesExhausted_spec (pct : Nat) (bc : BatchConstraintsCfg) (w : Batch) :
    ((isBatchResourcesExhausted pct bc w).1
        = (exhaustChecks pct bc w.remainingResources).any Prod.snd) ∧
    ((isBatchResourcesExhausted pct bc w).2.1
        = ((((exhaustChecks pct bc w.remainingResources).find? Prod.snd).map Prod.fst).getD "")) ∧
    ((isBatchResourcesExhausted pct bc w).1 = true →
      (isBatchResourcesExhausted pct bc w).2.2
        = { w with closingReason := ClosingReason.BatchAlmostFullClosingReason }) ∧
    ((isBatchResourcesExhausted pct bc w).1 = false →
      (isBatchResourcesExhausted pct bc w).2.2 = w) := by
  have hrd : batchResourceCheck pct bc w.remainingResources
      = ((exhaustChecks pct bc w.remainingResources).any Prod.snd,
         ((((exhaustChecks pct bc w.remainingResources).find? Prod.snd).map Prod.fst).getD "")) := by
    simp only [batchResourceCheck, exhaustChecks]
    split_ifs <;> simp [List.find?, List.any, *]
  simp only [isBatchResourcesExhausted, hrd]
  by_cases h : (exhaustChecks pct bc w.remainingResources).any Prod.snd
  · simp [h]
  · simp [h]

/-- Witness for C3 at a concrete input whose first at-or-below-threshold
component is `MaxSteps`. -/
theorem isBatchResourcesExhausted_spec_witness :
    (isBatchResourcesExhausted 90 bcC3
      { wipC3 with remainingResources := ⟨⟨100, 100, 100, 100, 100, 100, 100, 50, 100⟩, 1000⟩ }).2.1
        = "MaxSteps" ∧
    (isBatchResourcesExhausted 90 bcC3
      { wipC3 with remainingResources := ⟨⟨100, 100, 100, 100, 100, 100, 100, 50, 100⟩, 1000⟩ }).2.2.closingReason
        = ClosingReason.BatchAlmostFullClosingReason := by
  obtain ⟨h1, h2, h3, h4⟩ := isBatchResourcesExhausted_spec 90 bcC3
    { wipC3 with remainingResources := ⟨⟨100, 100, 100, 100, 100, 100, 100, 50, 100⟩, 1000⟩ }
  refine ⟨by rw [h2]; decide, ?_⟩
  rw [h3 (by rw [h1]; decide)]

/-- Modelled from the spec: `state.BatchResources.Sub` (the state package
is not under src/).  Per §4.1 of the spec: "if any component of `self` is
less than `other`, leave `self` unmodified and fail; else subtract
component-wise".  The all-or-nothing failure is embedded as `Except`. -/
def BatchResources.sub (self other : BatchResources) : Except Unit BatchResources :=
  if BatchResources.le other self then
    Except.ok
      { ZKCounters :=
          { GasUsed := self.ZKCounters.GasUsed - other.ZKCounters.GasUsed
            UsedKeccakHashes := self.ZKCounters.UsedKeccakHashes - other.ZKCounters.UsedKeccakHashes
            UsedPoseidonHashes := self.ZKCounters.UsedPoseidonHashes - other.ZKCounters.UsedPoseidonHashes
            UsedPoseidonPaddings := self.ZKCounters.UsedPoseidonPaddings - other.ZKCounters.UsedPoseidonPaddings
            UsedMemAligns := self.ZKCounters.UsedMemAligns - other.ZKCounters.UsedMemAligns
            UsedArithmetics := self.ZKCounters.UsedArithmetics - other.ZKCounters.UsedArithmetics
            UsedBinaries := self.ZKCounters.UsedBinaries - other.ZKCounters.UsedBinaries
            UsedSteps := self.ZKCounters.UsedSteps - other.ZKCounters.UsedSteps
            UsedSha256Hashes_V2 := self.ZKCounters.UsedSha256Hashes_V2 - other.ZKCounters.UsedSha256Hashes_V2 }
        Bytes := self.Bytes - other.Bytes }
  else
    Except.error ()

/-- Embedding of the pure content of `openNewWIPBatch`
(src/sequencer/batch.go lines 267–312): the returned wip batch.  The `ger`
argument is only written to the persistent state row, never to the
in-memory `Batch`, and the state-store interaction is external. -/
def openNewWIPBatch (batchConstraints : BatchConstraintsCfg)
    (sequencerAddress timestamp : Nat) (batchNumber ger stateRoot LER : Nat) : Batch :=
  { batchNumber := batchNumber
    coinbase := sequencerAddress
    timestamp := timestamp
    initialStateRoot := stateRoot
    imStateRoot := stateRoot
    finalStateRoot := stateRoot
    localExitRoot := LER
    countOfTxs := 0
    remainingResources := getMaxRemainingResources batchConstraints
    closingReason := ClosingReason.EmptyClosingReason }

/-- Embedding of the tail of `closeAndOpenNewWIPBatch`
(src/sequencer/batch.go lines 250–263): after forced batches are handled,
the new batch is opened with `lastBatchNumber + 1`, then
`f.wipBatch.remainingResources.Sub(l2BlockUsedResources)` is performed on
the (old) `f.wipBatch`, and the new `batch` is returned.  The result pair
is `(value returned by the Go function, f.wipBatch after the mutation)`. -/
def closeAndOpenNewWIPBatchTail (batchConstraints : BatchConstraintsCfg)
    (l2BlockUsedResources : BatchResources) (sequencerAddress timestamp : Nat)
    (wipBatch : Batch) (lastBatchNumber currentGER stateRoot : Nat) :
    Except String (Batch × Batch) :=
  let batch := openNewWIPBatch batchConstraints sequencerAddress timestamp
    (lastBatchNumber + 1) currentGER stateRoot wipBatch.localExitRoot
  match BatchResources.sub wipBatch.remainingResources l2BlockUsedResources with
  | Except.error _ => Except.error "failed to subtract L2 block used resources to wip batch"
  | Except.ok newRemaining => Except.ok (batch, { wipBatch with remainingResources := newRemaining })

/-- Concrete constraints for the C1 evaluation: byte maximum 1000. -/
def bcC1 : BatchConstraintsCfg := ⟨300, 1000, 100, 100, 100, 100, 100, 100, 100, 100, 100⟩

/-- Concrete per-block overhead for the C1 evaluation. -/
def l2ovhC1 : BatchResources := ⟨⟨10, 1, 1, 1, 1, 1, 1, 1, 1⟩, 50⟩

/-- Concrete old wip batch for the C1 evaluation. -/
def wipC1 : Batch :=
  { batchNumber := 7, coinbase := 1, timestamp := 0, initialStateRoot := 11, imStateRoot := 12
    finalStateRoot := 12, localExitRoot := 13, countOfTxs := 2
    remainingResources := ⟨⟨90, 99, 99, 99, 99, 99, 99, 99, 99⟩, 900⟩
    closingReason := ClosingReason.BatchAlmostFullClosingReason }

/-- C1 evaluated at the failing input: `l2BlockUsedResources` (bytes 50) is
subtracted from the old `f.wipBatch` budget (900 → 850), while the batch
the function returns keeps the untouched full budget
`getMaxRemainingResources` (bytes 1000, not 1000 − 50) — contradicting the
claim that the subtraction lands on the newly opened batch. -/
theorem closeAndOpenNewWIPBatch_subtracts_from_old_batch :
    (closeAndOpenNewWIPBatchTail bcC1 l2ovhC1 1 5 wipC1 7 21 12).toOption.map
        (fun p => (p.1.remainingResources, p.2.remainingResources.Bytes))
      = some (getMaxRemainingResources bcC1, 850) ∧
    (getMaxRemainingResources bcC1).Bytes = 1000 ∧
    l2ovhC1.Bytes = 50 := by
  decide

/-- Embedding of `state.Batch` (the state-store batch row).  Hashes,
addresses and roots are embedded as `Nat`; the L2 data blob as `List Nat`
(hex encoding of the blob is injective, so equality of encodings is
equality of values). -/
structure StateBatch where
  BatchNumber : Nat
  Coinbase : Nat
  BatchL2Data : List Nat
  StateRoot : Nat
  LocalExitRoot : Nat
  AccInputHash : Nat
  GlobalExitRoot : Nat
  Timestamp : Nat
  WIP : Bool
  deriving Repr, DecidableEq

/-- Embedding of the `stateMetrics` caller labels used by
`reprocessFullBatch`. -/
inductive Caller where
  | SequencerCallerLabel
  | DiscardCallerLabel
  deriving Repr, DecidableEq

/-- Modelled from the spec: `mockL1InfoRoot`, the mock constant used as
`L1InfoRoot_V2` of the sanity-reprocess request (its definition is not
under src/). -/
def mockL1InfoRoot : Nat := 0

/-- Embedding of `state.ProcessRequest` as populated by
`reprocessFullBatch` (src/sequencer/batch.go lines 402–413).  The
`L1InfoTreeData_V2` map is embedded as an opaque oracle value. -/
structure ProcessRequest where
  BatchNumber : Nat
  L1InfoRoot_V2 : Nat
  OldStateRoot : Nat
  Transactions : List Nat
  Coinbase : Nat
  TimestampLimit_V2 : Nat
  ForkID : Nat
  SkipVerifyL1InfoRoot_V2 : Bool
  Caller : Caller
  L1InfoTreeData_V2 : Nat
  deriving Repr, DecidableEq

/-- Embedding of `state.ProcessBatchResponse` (the fields the claims
read).  `ExecutorError` is `none` when the executor reported no error. -/
structure ProcessBatchResponse where
  NewStateRoot : Nat
  NewLocalExitRoot : Nat
  NewAccInputHash : Nat
  ExecutorError : Option Nat
  IsRomOOCError : Bool
  deriving Repr, DecidableEq

/-- Modelled from the spec: `event.Source_Node` (the event package is not
under src/); the constants are distinct tags. -/
def Source_Node : String := "node"

/-- Modelled from the spec: `event.Component_Sequencer`. -/
def Component_Sequencer : String := "sequencer"

/-- Modelled from the spec: `event.Level_Critical`. -/
def Level_Critical : String := "critical"

/-- Modelled from the spec: `event.EventID_ReprocessFullBatchOOC`. -/
def EventID_ReprocessFullBatchOOC : String := "reprocess full batch OOC"

/-- Embedding of `event.Event` as populated by `reprocessFullBatch`.  The
Go `Description` holds `string(json.Marshal(request))`; JSON serialization
is injective on `ProcessRequest` and never fails for it, so the payload is
embedded by the request value itself. -/
structure Event where
  ReceivedAt : Nat
  Source : String
  Component : String
  Level : String
  EventID : String
  Description : ProcessRequest
  Json : ProcessRequest
  deriving Repr, DecidableEq

/-- Embedding of the sequencer error values returned by
`reprocessFullBatch` (`ErrGetBatchByNumber`, `ErrProcessBatch`,
`ErrExecutorError`, `ErrProcessBatchOOC`, `ErrStateRootNoMatch`). -/
inductive SeqError where
  | ErrGetBatchByNumber
  | ErrProcessBatch
  | ErrExecutorError
  | ErrProcessBatchOOC
  | ErrStateRootNoMatch
  deriving Repr, DecidableEq

/-- Oracle environment for one `reprocessFullBatch` run: the results of
the external state-store and executor calls, plus the wall clock and fork
id.  `decodeBatchOk` tells whether `state.DecodeBatchV2(batch.BatchL2Data)`
succeeds inside the `reprocessError` closure. -/
structure ReprocessEnv where
  getBatchByNumber : Except Unit StateBatch
  getL1InfoTreeData : Except Unit Nat
  processBatchV2 : Except Unit ProcessBatchResponse
  decodeBatchOk : Bool
  now : Nat
  forkID : Nat

/-- Observable outcome of one `reprocessFullBatch` run: the returned
response and error, the events stored through the event log, and whether
`f.Halt` was invoked during the run. -/
structure ReprocessOutcome where
  response : Option ProcessBatchResponse
  error : Option SeqError
  events : List Event
  halted : Bool
  deriving Repr, DecidableEq

/-- Embedding of the `reprocessError` closure of `reprocessFullBatch`
(src/sequencer/batch.go lines 366–386): with a nil batch it only logs and
returns; with a batch whose L2 data fails to decode it logs and returns;
otherwise it logs the batch detail and invokes `f.Halt`.  The returned
flag is whether `Halt` was invoked. -/
def reprocessError (decodeBatchOk : Bool) (batch : Option StateBatch) : Bool :=
  match batch with
  | none => false
  | some _ => decodeBatchOk

/-- Embedding of the executor request built by `reprocessFullBatch`
(src/sequencer/batch.go lines 402–413). -/
def mkExecutorBatchRequest (env : ReprocessEnv) (sequentialReprocessFullBatch : Bool)
    (initialStateRoot : Nat) (batch : StateBatch) (l1data : Nat) : ProcessRequest :=
  { BatchNumber := batch.BatchNumber
    L1InfoRoot_V2 := mockL1InfoRoot
    OldStateRoot := initialStateRoot
    Transactions := batch.BatchL2Data
    Coinbase := batch.Coinbase
    TimestampLimit_V2 := env.now
    ForkID := env.forkID
    SkipVerifyL1InfoRoot_V2 := true
    Caller := if sequentialReprocessFullBatch then Caller.SequencerCallerLabel
              else Caller.DiscardCallerLabel
    L1InfoTreeData_V2 := l1data }

/-- Embedding of `reprocessFullBatch` (src/sequencer/batch.go lines
364–469).  External calls are read from the oracle environment; the
returned record collects the response, the error, the stored events and
whether `Halt` was invoked. -/
def reprocessFullBatch (env : ReprocessEnv) (sequentialReprocessFullBatch : Bool)
    (batchNum initialStateRoot expectedNewStateRoot : Nat) : ReprocessOutcome :=
  match env.getBatchByNumber with
  | Except.error _ =>
    { response := none, error := some SeqError.ErrGetBatchByNumber, events := []
      halted := reprocessError env.decodeBatchOk none }
  | Except.ok batch =>
    match env.getL1InfoTreeData with
    | Except.error _ =>
      { response := none, error := some SeqError.ErrGetBatchByNumber, events := []
        halted := reprocessError env.decodeBatchOk none }
    | Except.ok l1data =>
      let executorBatchRequest :=
        mkExecutorBatchRequest env sequentialReprocessFullBatch initialStateRoot batch l1data
      match env.processBatchV2 with
      | Except.error _ =>
        { response := none, error := some SeqError.ErrProcessBatch, events := []
          halted := reprocessError env.decodeBatchOk (some batch) }
      | Except.ok result =>
        if result.ExecutorError.isSome then
          { response := none, error := some SeqError.ErrExecutorError, events := []
            halted := reprocessError env.decodeBatchOk (some batch) }
        else if result.IsRomOOCError then
          { response := none, error := some SeqError.ErrProcessBatchOOC
            events := [{ ReceivedAt := env.now
                         Source := Source_Node
                         Component := Component_Sequencer
                         Level := Level_Critical
                         EventID := EventID_ReprocessFullBatchOOC
                         Description := executorBatchRequest
                         Json := executorBatchRequest }]
            halted := reprocessError env.decodeBatchOk (some batch) }
        else if result.NewStateRoot ≠ expectedNewStateRoot then
          { response := none, error := some SeqError.ErrStateRootNoMatch, events := []
            halted := reprocessError env.decodeBatchOk (some batch) }
        else
          { response := some result, error := none, events := [], halted := false }

/-- Embedding of the sanity-reprocess step of `closeAndOpenNewWIPBatch`
(src/sequencer/batch.go lines 187–200): in sequential mode the error of
`reprocessFullBatch` aborts `closeAndOpenNewWIPBatch`; in async mode the
call runs in a goroutine and both return values are discarded.  The pair
is `(what closeAndOpenNewWIPBatch observes, the outcome of the run)`. -/
def sanityReprocessStep (env : ReprocessEnv) (sequentialReprocessFullBatch : Bool)
    (batchNum initialStateRoot finalStateRoot : Nat) :
    Except String Unit × ReprocessOutcome :=
  let outcome := reprocessFullBatch env sequentialReprocessFullBatch
    batchNum initialStateRoot finalStateRoot
  if sequentialReprocessFullBatch then
    (if outcome.error.isSome then
        Except.error "halting Sequencer because of error reprocessing full batch (sanity check)"
      else Except.ok (), outcome)
  else
    (Except.ok (), outcome)

/-- Concrete batch row for the C2 counterexample. -/
def sbC2 : StateBatch :=
  { BatchNumber := 5, Coinbase := 2, BatchL2Data := [1, 2, 3], StateRoot := 10
    LocalExitRoot := 11, AccInputHash := 12, GlobalExitRoot := 13, Timestamp := 14, WIP := false }

/-- Concrete environment for the C2 counterexample: the executor reports
an internal error, and the batch L2 data decodes. -/
def envC2 : ReprocessEnv :=
  { getBatchByNumber := Except.ok sbC2
    getL1InfoTreeData := Except.ok 7
    processBatchV2 := Except.ok
      { NewStateRoot := 99, NewLocalExitRoot := 98, NewAccInputHash := 97
        ExecutorError := some 1, IsRomOOCError := false }
    decodeBatchOk := true, now := 100, forkID := 9 }

/-- Counterexample to C2 as written: in async mode
(`SequentialReprocessFullBatch = false`) an executor-reported error makes
the caller continue (it observes no error), yet `Halt` IS invoked — inside
`reprocessFullBatch`, via its `reprocessError` closure. -/
theorem reprocessFullBatch_async_halt_cex :
    (sanityReprocessStep envC2 false 5 0 0).1.toOption = some () ∧
    (reprocessFullBatch envC2 false 5 0 0).error = some SeqError.ErrExecutorError ∧
    (reprocessFullBatch envC2 false 5 0 0).halted = true := by
  decide

/-- C2 (amended): in async mode the caller of `reprocessFullBatch`
discards the returned error and continues, but `reprocessFullBatch` itself
still invokes `Halt` for every one of the four failure classes (executor
invocation error, executor-reported error, OOC, state-root mismatch)
whenever the batch record was fetched and its L2 data decodes; only
batch-fetch / L1-info-tree-data failures (`ErrGetBatchByNumber`) skip
`Halt`. -/
theorem reprocessFullBatch_async_behaviour (env : ReprocessEnv) (batchNum isr esr : Nat) :
    (sanityReprocessStep env false batchNum isr esr).1 = Except.ok () ∧
    (env.decodeBatchOk = true →
      ∀ e, (reprocessFullBatch env false batchNum isr esr).error = some e →
        e ≠ SeqError.ErrGetBatchByNumber →
        (reprocessFullBatch env false batchNum isr esr).halted = true) := by
  constructor
  · simp [sanityReprocessStep]
  · intro hdec e he hne
    unfold reprocessFullBatch reprocessError at he ⊢
    rcases hgb : env.getBatchByNumber with u | batch <;> simp only [hgb] at he ⊢
    · simp_all
    rcases hl1 : env.getL1InfoTreeData with u2 | l1data <;> simp only [hl1] at he ⊢
    · simp_all
    rcases hpb : env.processBatchV2 with u3 | result <;> simp only [hpb] at he ⊢
    · simp_all
    split_ifs at he ⊢ <;> simp_all

/-- Witness for C2 (amended) at the concrete async environment `envC2`. -/
theorem reprocessFullBatch_async_behaviour_witness :
    (sanityReprocessStep envC2 false 5 0 0).1 = Except.ok () ∧
    (reprocessFullBatch envC2 false 5 0 0).halted = true := by
  obtain ⟨h1, h2⟩ := reprocessFullBatch_async_behaviour envC2 5 0 0
  exact ⟨h1, h2 rfl SeqError.ErrExecutorError (by decide) (by decide)⟩

/-- C5: when the executor result has `IsRomOOCError` set (and no
executor-reported error preempts it), `reprocessFullBatch` stores exactly
one event — source `Node`, component `Sequencer`, level `Critical`, id
`ReprocessFullBatchOOC`, payload the serialization of the executor request
that was sent — and returns `ErrProcessBatchOOC` with no response. -/
theorem reprocessFullBatch_ooc_event (env : ReprocessEnv) (seq : Bool)
    (batchNum isr esr : Nat) (batch : StateBatch) (result : ProcessBatchResponse) (l1data : Nat)
    (hb : env.getBatchByNumber = Except.ok batch)
    (hl : env.getL1InfoTreeData = Except.ok l1data)
    (hp : env.processBatchV2 = Except.ok result)
    (hee : result.ExecutorError = none)
    (hooc : result.IsRomOOCError = true) :
    (reprocessFullBatch env seq batchNum isr esr).events =
      [{ ReceivedAt := env.now
         Source := Source_Node
         Component := Component_Sequencer
         Level := Level_Critical
         EventID := EventID_ReprocessFullBatchOOC
         Description := mkExecutorBatchRequest env seq isr batch l1data
         Json := mkExecutorBatchRequest env seq isr batch l1data }] ∧
    (reprocessFullBatch env seq batchNum isr esr).error = some SeqError.ErrProcessBatchOOC ∧
    (reprocessFullBatch env seq batchNum isr esr).response = none := by
  simp [reprocessFullBatch, hb, hl, hp, hee, hooc]

/-- Concrete environment for the C5 witness: the executor reports OOC. -/
def envC5 : ReprocessEnv :=
  { getBatchByNumber := Except.ok sbC2
    getL1InfoTreeData := Except.ok 7
    processBatchV2 := Except.ok
      { NewStateRoot := 99, NewLocalExitRoot := 98, NewAccInputHash := 97
        ExecutorError := none, IsRomOOCError := true }
    decodeBatchOk := true, now := 100, forkID := 9 }

/-- Witness for C5 at the concrete environment `envC5`. -/
theorem reprocessFullBatch_ooc_event_witness :
    (reprocessFullBatch envC5 true 5 3 4).error = some SeqError.ErrProcessBatchOOC ∧
    (reprocessFullBatch envC5 true 5 3 4).events.map Event.EventID
      = [EventID_ReprocessFullBatchOOC] := by
  obtain ⟨h1, h2, h3⟩ := reprocessFullBatch_ooc_event envC5 true 5 3 4 sbC2
    { NewStateRoot := 99, NewLocalExitRoot := 98, NewAccInputHash := 97
      ExecutorError := none, IsRomOOCError := true } 7 rfl rfl rfl rfl rfl
  exact ⟨h2, by rw [h1]; rfl⟩

/-- C6: `reprocessFullBatch` maps each of its four failure classes to its
own distinct error kind — invocation failure to `ErrProcessBatch`, a
non-nil executor-reported error to `ErrExecutorError`, a ROM
out-of-counters result to `ErrProcessBatchOOC`, a state-root mismatch to
`ErrStateRootNoMatch` — and on success returns the executor response with
no error. -/
theorem reprocessFullBatch_error_classes (env : ReprocessEnv) (seq : Bool)
    (batchNum isr esr : Nat) (batch : StateBatch) (l1data : Nat)
    (hb : env.getBatchByNumber = Except.ok batch)
    (hl : env.getL1InfoTreeData = Except.ok l1data) :
    (env.processBatchV2 = Except.error () →
      (reprocessFullBatch env seq batchNum isr esr).error = some SeqError.ErrProcessBatch ∧
      (reprocessFullBatch env seq batchNum isr esr).response = none) ∧
    (∀ result e, env.processBatchV2 = Except.ok result → result.ExecutorError = some e →
      (reprocessFullBatch env seq batchNum isr esr).error = some SeqError.ErrExecutorError ∧
      (reprocessFullBatch env seq batchNum isr esr).response = none) ∧
    (∀ result, env.processBatchV2 = Except.ok result → result.ExecutorError = none →
      result.IsRomOOCError = true →
      (reprocessFullBatch env seq batchNum isr esr).error = some SeqError.ErrProcessBatchOOC ∧
      (reprocessFullBatch env seq batchNum isr esr).response = none) ∧
    (∀ result, env.processBatchV2 = Except.ok result → result.ExecutorError = none →
      result.IsRomOOCError = false → result.NewStateRoot ≠ esr →
      (reprocessFullBatch env seq batchNum isr esr).error = some SeqError.ErrStateRootNoMatch ∧
      (reprocessFullBatch env seq batchNum isr esr).response = none) ∧
    (∀ result, env.processBatchV2 = Except.ok result → result.ExecutorError = none →
      result.IsRomOOCError = false → result.NewStateRoot = esr →
      (reprocessFullBatch env seq batchNum isr esr).error = none ∧
      (reprocessFullBatch env seq batchNum isr esr).response = some result) ∧
    ([SeqError.ErrProcessBatch, SeqError.ErrExecutorError,
      SeqError.ErrProcessBatchOOC, SeqError.ErrStateRootNoMatch].Pairwise (· ≠ ·)) := by
  refine ⟨?_, ?_, ?_, ?_, ?_, by decide⟩
  · intro hp; simp [reprocessFullBatch, hb, hl, hp]
  · intro result e hp hee; simp [reprocessFullBatch, hb, hl, hp, hee]
  · intro result hp hee hooc; simp [reprocessFullBatch, hb, hl, hp, hee, hooc]
  · intro result hp hee hooc hsr; simp [reprocessFullBatch, hb, hl, hp, hee, hooc, hsr]
  · intro result hp hee hooc hsr; simp [reprocessFullBatch, hb, hl, hp, hee, hooc, hsr]

/-- Concrete environment for the C6 witness: a successful reprocess whose
new state root matches the expected one (4). -/
def envC6 : ReprocessEnv :=
  { getBatchByNumber := Except.ok sbC2
    getL1InfoTreeData := Except.ok 7
    processBatchV2 := Except.ok
      { NewStateRoot := 4, NewLocalExitRoot := 98, NewAccInputHash := 97
        ExecutorError := none, IsRomOOCError := false }
    decodeBatchOk := true, now := 100, forkID := 9 }

/-- Witness for C6 at the concrete environment `envC6` (success case). -/
theorem reprocessFullBatch_error_classes_witness :
    (reprocessFullBatch envC6 true 5 3 4).error = none ∧
    (reprocessFullBatch envC6 true 5 3 4).response = some
      { NewStateRoot := 4, NewLocalExitRoot := 98, NewAccInputHash := 97
        ExecutorError := none, IsRomOOCError := false } := by
  have h := reprocessFullBatch_error_classes envC6 true 5 3 4 sbC2 7 rfl rfl
  exact h.2.2.2.2.1
    { NewStateRoot := 4, NewLocalExitRoot := 98, NewAccInputHash := 97
      ExecutorError := none, IsRomOOCError := false } rfl rfl rfl rfl

/-- Embedding of `getLastStateRoot` (src/sequencer/batch.go lines 36–51):
the argument is the oracle result of `GetLastNBatches(ctx, 2)`.  On store
failure the error is propagated (the Go code wraps it); otherwise the Go
zero-value `oldStateRoot` is overwritten only when the list has exactly
one or exactly two entries. -/
def getLastStateRoot (batchesResult : Except Unit (List StateBatch)) : Except Unit Nat :=
  match batchesResult with
  | Except.error e => Except.error e
  | Except.ok batches =>
    Except.ok
      (if h1 : batches.length = 1 then (batches.get ⟨0, by omega⟩).StateRoot
       else if h2 : batches.length = 2 then (batches.get ⟨1, by omega⟩).StateRoot
       else 0)

/-- C9: when `GetLastNBatches` succeeds with an empty list,
`getLastStateRoot` returns the zero hash and no error; with exactly one
batch it returns the state root of that batch; with two it returns the
state root of the older (second) batch. -/
theorem getLastStateRoot_spec (res : Except Unit (List StateBatch)) (lst : List StateBatch)
    (h : res = Except.ok lst) :
    (lst = [] → getLastStateRoot res = Except.ok 0) ∧
    (∀ b, lst = [b] → getLastStateRoot res = Except.ok b.StateRoot) ∧
    (∀ b c, lst = [b, c] → getLastStateRoot res = Except.ok c.StateRoot) := by
  subst h
  refine ⟨?_, ?_, ?_⟩
  · rintro rfl; rfl
  · rintro b rfl; rfl
  · rintro b c rfl; rfl

/-- Concrete batch rows for the C9 witness. -/
def sbC9a : StateBatch :=
  { BatchNumber := 8, Coinbase := 2, BatchL2Data := [5], StateRoot := 41
    LocalExitRoot := 11, AccInputHash := 12, GlobalExitRoot := 13, Timestamp := 14, WIP := true }

/-- Second (older) concrete batch row for the C9 witness. -/
def sbC9b : StateBatch :=
  { BatchNumber := 7, Coinbase := 2, BatchL2Data := [4], StateRoot := 40
    LocalExitRoot := 11, AccInputHash := 12, GlobalExitRoot := 13, Timestamp := 13, WIP := false }

/-- Witness for C9: the empty, one-batch and two-batch cases at concrete
inputs. -/
theorem getLastStateRoot_spec_witness :
    getLastStateRoot (Except.ok []) = Except.ok 0 ∧
    getLastStateRoot (Except.ok [sbC9a]) = Except.ok 41 ∧
    getLastStateRoot (Except.ok [sbC9a, sbC9b]) = Except.ok 40 :=
  ⟨(getLastStateRoot_spec (Except.ok []) [] rfl).1 rfl,
   (getLastStateRoot_spec (Except.ok [sbC9a]) [sbC9a] rfl).2.1 sbC9a rfl,
   (getLastStateRoot_spec (Except.ok [sbC9a, sbC9b]) [sbC9a, sbC9b] rfl).2.2 sbC9a sbC9b rfl⟩

/-- Embedding of `l2_shared.TrustedState`: the two-slot "last two trusted
batches" cache (`LastTrustedBatches[0]` and `LastTrustedBatches[1]`). -/
structure TrustedState where
  LastTrustedBatches0 : Option StateBatch
  LastTrustedBatches1 : Option StateBatch
  deriving Repr, DecidableEq

/-- Embedding of `l2_shared.ProcessResponse` (src/unnamed/part_000). -/
structure ProcessResponse where
  ProcessBatchResponse : Option ProcessBatchResponse
  ClearCache : Bool
  UpdateBatch : Option StateBatch
  UpdateBatchWithProcessBatchResponse : Bool
  deriving Repr, DecidableEq

/-- The slot-0 value `updateCache` (src/unnamed/part_000 lines 159–170)
computes before the closed-batch move: `UpdateBatch` when present,
overwritten with the executor response fields (state root, LER,
acc-input-hash, `wip = !closedBatch`) when both `ProcessBatchResponse` is
non-nil and `UpdateBatchWithProcessBatchResponse` is set. -/
def updateCacheSlot0 (response : ProcessResponse) (closedBatch : Bool) : Option StateBatch :=
  match response.ProcessBatchResponse, response.UpdateBatch with
  | some pbr, some b =>
    if response.UpdateBatchWithProcessBatchResponse then
      some { b with StateRoot := pbr.NewStateRoot
                    LocalExitRoot := pbr.NewLocalExitRoot
                    AccInputHash := pbr.NewAccInputHash
                    WIP := !closedBatch }
    else some b
  | _, _ => response.UpdateBatch

/-- Embedding of `updateCache` (src/unnamed/part_000 lines 152–176): a nil
or `ClearCache` response empties both slots; otherwise slot 0 is computed
per `updateCacheSlot0`, and for a closed batch it is moved to slot 1 with
slot 0 cleared.  The `status` argument is unread, as in the source. -/
def updateCache (status : TrustedState) (response : Option ProcessResponse)
    (closedBatch : Bool) : TrustedState :=
  match response with
  | none => ⟨none, none⟩
  | some resp =>
    if resp.ClearCache then ⟨none, none⟩
    else
      let slot0 := updateCacheSlot0 resp closedBatch
      if closedBatch then ⟨none, slot0⟩ else ⟨slot0, none⟩

/-- C10: when `UpdateBatch` is nil, `updateCache` leaves slot 0 (and hence
also slot 1) nil even when `UpdateBatchWithProcessBatchResponse` is true —
the executor-response overwrites apply only to a non-nil `UpdateBatch` —
and for every closed batch the result has slot 0 nil with slot 1 holding
the slot-0 value the call computed before the move (`updateCacheSlot0`). -/
theorem updateCache_spec (status : TrustedState) (resp : ProcessResponse) (closed : Bool) :
    (resp.UpdateBatch = none → updateCache status (some resp) closed = ⟨none, none⟩) ∧
    (resp.ClearCache = true → updateCache status (some resp) closed = ⟨none, none⟩) ∧
    (closed = true → (updateCache status (some resp) true).LastTrustedBatches0 = none) ∧
    (closed = true → resp.ClearCache = false →
      (updateCache status (some resp) true).LastTrustedBatches1 = updateCacheSlot0 resp true) := by
  refine ⟨?_, ?_, ?_, ?_⟩
  · intro hub
    have hslot : updateCacheSlot0 resp closed = none := by
      unfold updateCacheSlot0
      rcases hpbr : resp.ProcessBatchResponse with _ | pbr <;> simp [hpbr, hub]
    simp [updateCache, hslot]
  · intro hclear; simp [updateCache, hclear]
  · intro hclosed; simp only [updateCache]; split_ifs <;> rfl
  · intro hclosed hclear; simp [updateCache, hclear]

/-- Concrete response for the C10 witness: nil `UpdateBatch` but
`UpdateBatchWithProcessBatchResponse` set and a non-nil executor
response. -/
def respC10 : ProcessResponse :=
  { ProcessBatchResponse := some
      { NewStateRoot := 77, NewLocalExitRoot := 78, NewAccInputHash := 79
        ExecutorError := none, IsRomOOCError := false }
    ClearCache := false
    UpdateBatch := none
    UpdateBatchWithProcessBatchResponse := true }

/-- Witness for C10 at the concrete response `respC10` with a closed
batch. -/
theorem updateCache_spec_witness :
    updateCache ⟨some sbC9a, some sbC9b⟩ (some respC10) true = ⟨none, none⟩ ∧
    (updateCache ⟨some sbC9a, some sbC9b⟩ (some respC10) true).LastTrustedBatches1
      = updateCacheSlot0 respC10 true := by
  obtain ⟨h1, h2, h3, h4⟩ := updateCache_spec ⟨some sbC9a, some sbC9b⟩ respC10 true
  exact ⟨h1 rfl, h4 rfl rfl⟩

/-- Embedding of `types.Batch` (the trusted-node batch of the JSON-RPC
types package): numbers, hashes and addresses as `Nat`, L2 data as
`List Nat`. -/
structure TrustedBatch where
  Number : Nat
  Coinbase : Nat
  StateRoot : Nat
  GlobalExitRoot : Nat
  LocalExitRoot : Nat
  BatchL2Data : List Nat
  Closed : Bool
  Timestamp : Nat
  deriving Repr, DecidableEq

/-- Embedding of `state.ZeroHash` (the all-zero 32-byte hash). -/
def ZeroHash : Nat := 0

/-- Embedding of `checkIfSyncedWhitoutWIP` (src/unnamed/part_000 lines
244–278).  The Go code compares hash/address string renderings and hex
encodings, all injective, so the comparisons are embedded as value
equality; `matchTimestamp` is hard-coded true in the source; the debug
string is logging only and omitted. -/
def checkIfSyncedWhitoutWIP (stateBatch : Option StateBatch)
    (trustedBatch : Option TrustedBatch) : Bool :=
  match stateBatch, trustedBatch with
  | some sb, some tb =>
    let matchNumber := sb.BatchNumber == tb.Number
    let matchGER := sb.GlobalExitRoot == tb.GlobalExitRoot
    let matchLER := sb.LocalExitRoot == tb.LocalExitRoot
    let matchSR := sb.StateRoot == tb.StateRoot
    let matchCoinbase := sb.Coinbase == tb.Coinbase
    let matchTimestamp := true
    let matchL2Data := sb.BatchL2Data == tb.BatchL2Data
    matchNumber && matchGER && matchLER && matchSR && matchCoinbase && matchTimestamp && matchL2Data
  | _, _ => false

/-- Embedding of `checkIfSynced` (src/unnamed/part_000 lines 234–241):
`checkIfSyncedWhitoutWIP` plus the `WIP == !Closed` condition.  Both call
sites pass non-nil batches. -/
def checkIfSynced (stateBatch : StateBatch) (trustedBatch : TrustedBatch) : Bool :=
  checkIfSyncedWhitoutWIP (some stateBatch) (some trustedBatch) &&
    (stateBatch.WIP == !trustedBatch.Closed)

/-- The "state batch equals trusted batch" condition of claim C4, as a
proposition: number, GER, LER, state root, coinbase, L2 data, and
`wip == !trusted.closed`. -/
def matchesTrustedBatch (b : StateBatch) (t : TrustedBatch) : Prop :=
  b.BatchNumber = t.Number ∧ b.GlobalExitRoot = t.GlobalExitRoot ∧
  b.LocalExitRoot = t.LocalExitRoot ∧ b.StateRoot = t.StateRoot ∧
  b.Coinbase = t.Coinbase ∧ b.BatchL2Data = t.BatchL2Data ∧ b.WIP = !t.Closed

instance (b : StateBatch) (t : TrustedBatch) : Decidable (matchesTrustedBatch b t) := by
  unfold matchesTrustedBatch; infer_instance

/-- The batch-synced boolean agrees with the C4 equality condition. -/
theorem checkIfSynced_iff (b : StateBatch) (t : TrustedBatch) :
    checkIfSynced b t = true ↔ matchesTrustedBatch b t := by
  simp [checkIfSynced, checkIfSyncedWhitoutWIP, matchesTrustedBatch, Bool.and_eq_true,
    beq_iff_eq]
  tauto

/-- Embedding of `l2_shared.BatchProcessMode` (src/unnamed/part_000). -/
inductive BatchProcessMode where
  | FullProcessMode
  | IncrementalProcessMode
  | ReprocessProcessMode
  | NothingProcessMode
  deriving Repr, DecidableEq

/-- Embedding of `l2_shared.ProcessData` (src/unnamed/part_000 lines
32–46); the `Description` and `DebugPrefix` strings are logging only and
omitted. -/
structure ProcessData where
  BatchNumber : Nat
  Mode : BatchProcessMode
  OldStateRoot : Nat
  OldAccInputHash : Nat
  BatchMustBeClosed : Bool
  TrustedBatch : TrustedBatch
  StateBatch : Option StateBatch
  Now : Nat
  deriving Repr, DecidableEq

/-- Embedding of `isTrustedBatchClosed` (src/unnamed/part_000). -/
def isTrustedBatchClosed (batch : TrustedBatch) : Bool :=
  batch.Closed

/-- Embedding of `getModeForProcessBatch` (src/unnamed/part_000 lines
178–229).  Every branch of the source sets one of the four modes, so the
Go `result.Mode == ""` guard is unreachable and has no counterpart here. -/
def getModeForProcessBatch (now : Nat) (trustedNodeBatch : Option TrustedBatch)
    (stateBatch : Option StateBatch) (statePreviousBatch : Option StateBatch) :
    Except String ProcessData :=
  match trustedNodeBatch, statePreviousBatch with
  | some t, some p =>
    let result : BatchProcessMode × Nat :=
      match stateBatch with
      | none => (BatchProcessMode.FullProcessMode, p.StateRoot)
      | some sb =>
        if checkIfSynced sb t then
          (BatchProcessMode.NothingProcessMode, ZeroHash)
        else if sb.StateRoot ≠ ZeroHash then
          (BatchProcessMode.IncrementalProcessMode, sb.StateRoot)
        else
          (BatchProcessMode.ReprocessProcessMode, p.StateRoot)
    Except.ok
      { BatchNumber := t.Number
        Mode := result.1
        OldStateRoot := result.2
        OldAccInputHash := p.AccInputHash
        BatchMustBeClosed :=
          decide (result.1 ≠ BatchProcessMode.NothingProcessMode) && isTrustedBatchClosed t
        TrustedBatch := t
        StateBatch := stateBatch
        Now := now }
  | _, _ => Except.error "trustedNodeBatch and statePreviousBatch must not be nil"

/-- C4: with a non-nil trusted batch and previous state batch,
`getModeForProcessBatch` succeeds and follows the four-row table — null
state batch gives Full with the state root of the previous batch; a state
batch equal to the trusted batch gives Nothing with zero old root;
unequal with nonzero current state root gives Incremental with the
current root; unequal with zero current root gives Reprocess with the
root of the previous batch — and in every case
`BatchMustBeClosed = (mode ≠ Nothing) && trusted.closed`. -/
theorem getModeForProcessBatch_table (now : Nat) (t : TrustedBatch)
    (sb : Option StateBatch) (p : StateBatch) :
    (∃ pd, getModeForProcessBatch now (some t) sb (some p) = Except.ok pd) ∧
    ∀ pd, getModeForProcessBatch now (some t) sb (some p) = Except.ok pd →
      (sb = none →
        pd.Mode = BatchProcessMode.FullProcessMode ∧ pd.OldStateRoot = p.StateRoot) ∧
      (∀ b, sb = some b → matchesTrustedBatch b t →
        pd.Mode = BatchProcessMode.NothingProcessMode ∧ pd.OldStateRoot = ZeroHash) ∧
      (∀ b, sb = some b → ¬ matchesTrustedBatch b t → b.StateRoot ≠ ZeroHash →
        pd.Mode = BatchProcessMode.IncrementalProcessMode ∧ pd.OldStateRoot = b.StateRoot) ∧
      (∀ b, sb = some b → ¬ matchesTrustedBatch b t → b.StateRoot = ZeroHash →
        pd.Mode = BatchProcessMode.ReprocessProcessMode ∧ pd.OldStateRoot = p.StateRoot) ∧
      pd.BatchMustBeClosed
        = (decide (pd.Mode ≠ BatchProcessMode.NothingProcessMode) && t.Closed) := by
  constructor
  · exact ⟨_, rfl⟩
  · intro pd hpd
    simp only [getModeForProcessBatch, Except.ok.injEq] at hpd
    subst hpd
    rcases sb with _ | b
    · refine ⟨fun _ => ⟨rfl, rfl⟩, ?_, ?_, ?_, rfl⟩ <;>
        exact fun b hb => absurd hb (by simp)
    · refine ⟨fun h => absurd h (by simp), ?_, ?_, ?_, rfl⟩
      · rintro b' hb' hmatch
        injection hb' with hbb
        subst hbb
        have hs : checkIfSynced b t = true := (checkIfSynced_iff b t).mpr hmatch
        simp [hs]
      · rintro b' hb' hnm hsr
        injection hb' with hbb
        subst hbb
        have hs : ¬ checkIfSynced b t = true := fun hh => hnm ((checkIfSynced_iff b t).mp hh)
        simp [hs, hsr]
      · rintro b' hb' hnm hsr
        injection hb' with hbb
        subst hbb
        have hs : ¬ checkIfSynced b t = true := fun hh => hnm ((checkIfSynced_iff b t).mp hh)
        simp [hs, hsr]

/-- Concrete trusted batch for the C4 witness (closed). -/
def tC4 : TrustedBatch :=
  { Number := 7, Coinbase := 2, StateRoot := 55, GlobalExitRoot := 56, LocalExitRoot := 57
    BatchL2Data := [1, 2], Closed := true, Timestamp := 3 }

/-- Concrete previous state batch for the C4 witness. -/
def pC4 : StateBatch :=
  { BatchNumber := 6, Coinbase := 2, BatchL2Data := [9], StateRoot := 50
    LocalExitRoot := 51, AccInputHash := 52, GlobalExitRoot := 53, Timestamp := 2, WIP := false }

/-- Witness for C4: the Full row at a concrete input (null state batch,
closed trusted batch), including `BatchMustBeClosed = true`. -/
theorem getModeForProcessBatch_table_witness :
    ∃ pd, getModeForProcessBatch 0 (some tC4) none (some pC4) = Except.ok pd ∧
      pd.Mode = BatchProcessMode.FullProcessMode ∧
      pd.OldStateRoot = pC4.StateRoot ∧
      pd.BatchMustBeClosed = true := by
  obtain ⟨⟨pd, hpd⟩, hall⟩ := getModeForProcessBatch_table 0 tC4 none pC4
  obtain ⟨h1, _, _, _, h5⟩ := hall pd hpd
  refine ⟨pd, hpd, (h1 rfl).1, (h1 rfl).2, ?_⟩
  rw [h5, (h1 rfl).1]
  decide

end ZkevmNode
